import Mathlib

/-!
Shallow embedding of the sumi pseudo-shader core:
`public/types/HLSL.ts` (color algebra and generic blend operations),
`src/components/Canvas.tsx` (compile-then-rasterize pass) and
`src/utils/Logger.ts` (diagnostic log).

JavaScript numbers are modelled exactly on the cases this development touches:
finite values are exact rationals (no rounding), with explicit `posInf`,
`negInf` and `nan` for the IEEE special values produced by division by zero
and by arithmetic on non-finite operands.  The JavaScript value `undefined`
(which arises when a constructor is called with fewer arguments than its
arity, and when an array is indexed out of range) is modelled by `Option`:
`none` is `undefined`.  Negative zero is not modelled; the rational `0`
plays the role of IEEE `+0`.
-/

/-- A JavaScript number: an exact finite rational or an IEEE special value. -/
inductive JSNum where
  | fin (q : ℚ)
  | posInf
  | negInf
  | nan
deriving DecidableEq

/-- A JavaScript value that may be `undefined` (`none`). -/
abbrev JVal := Option JSNum

/-- JavaScript `+` on numbers. -/
def jsAdd : JSNum → JSNum → JSNum
  | .nan, _ => .nan
  | _, .nan => .nan
  | .posInf, .negInf => .nan
  | .negInf, .posInf => .nan
  | .posInf, _ => .posInf
  | _, .posInf => .posInf
  | .negInf, _ => .negInf
  | _, .negInf => .negInf
  | .fin a, .fin b => .fin (a + b)

/-- JavaScript `-` on numbers. -/
def jsSub : JSNum → JSNum → JSNum
  | .nan, _ => .nan
  | _, .nan => .nan
  | .posInf, .posInf => .nan
  | .negInf, .negInf => .nan
  | .posInf, _ => .posInf
  | .negInf, _ => .negInf
  | _, .posInf => .negInf
  | _, .negInf => .posInf
  | .fin a, .fin b => .fin (a - b)

/-- JavaScript `*` on numbers. -/
def jsMul : JSNum → JSNum → JSNum
  | .nan, _ => .nan
  | _, .nan => .nan
  | .posInf, .posInf => .posInf
  | .posInf, .negInf => .negInf
  | .negInf, .posInf => .negInf
  | .negInf, .negInf => .posInf
  | .posInf, .fin q => if 0 < q then .posInf else if q < 0 then .negInf else .nan
  | .fin q, .posInf => if 0 < q then .posInf else if q < 0 then .negInf else .nan
  | .negInf, .fin q => if 0 < q then .negInf else if q < 0 then .posInf else .nan
  | .fin q, .negInf => if 0 < q then .negInf else if q < 0 then .posInf else .nan
  | .fin a, .fin b => .fin (a * b)

/-- JavaScript `/` on numbers (positive zero only: `a / 0` is `±Infinity`
for nonzero `a` and `NaN` for `a = 0`). -/
def jsDiv : JSNum → JSNum → JSNum
  | .nan, _ => .nan
  | _, .nan => .nan
  | .posInf, .posInf => .nan
  | .posInf, .negInf => .nan
  | .negInf, .posInf => .nan
  | .negInf, .negInf => .nan
  | .posInf, .fin q => if q < 0 then .negInf else .posInf
  | .negInf, .fin q => if q < 0 then .posInf else .negInf
  | .fin _, .posInf => .fin 0
  | .fin _, .negInf => .fin 0
  | .fin a, .fin b =>
    if b = 0 then (if a = 0 then .nan else if 0 < a then .posInf else .negInf)
    else .fin (a / b)

/-- JavaScript `Math.max` on two numbers (`NaN` propagates). -/
def jsMax : JSNum → JSNum → JSNum
  | .nan, _ => .nan
  | _, .nan => .nan
  | .posInf, _ => .posInf
  | _, .posInf => .posInf
  | .negInf, b => b
  | a, .negInf => a
  | .fin a, .fin b => .fin (max a b)

/-- JavaScript `Math.min` on two numbers (`NaN` propagates). -/
def jsMin : JSNum → JSNum → JSNum
  | .nan, _ => .nan
  | _, .nan => .nan
  | .negInf, _ => .negInf
  | _, .negInf => .negInf
  | .posInf, b => b
  | a, .posInf => a
  | .fin a, .fin b => .fin (min a b)

/-- JavaScript array indexing `l[i]`: the element when `i` is in range,
`undefined` otherwise.  A stored element may itself be `undefined`. -/
def getJ (l : List JVal) (i : ℕ) : JVal :=
  (l.get? i).getD none

/-- Coerce a possibly-`undefined` value to a number the way JavaScript
arithmetic does: `undefined` becomes `NaN`. -/
def toNum (v : JVal) : JSNum :=
  v.getD .nan

/-- The three concrete `Renderable` classes of `HLSL.ts`. -/
inductive Tag where
  | scalar
  | vector2
  | vector3
deriving DecidableEq

/-- The declared component count (`dimensions`) of each class. -/
def Tag.arity : Tag → ℕ
  | .scalar => 1
  | .vector2 => 2
  | .vector3 => 3

/-- A `Renderable` value: its class together with its stored `values` array.
The array always has length `tag.arity`, but entries may be `undefined`
when the constructor was applied to fewer arguments than the arity. -/
structure ColorValue where
  tag : Tag
  vals : List JVal
deriving DecidableEq

/-- `new Type(...args)`: the constructor stores exactly `arity` slots;
missing arguments are `undefined`, extra arguments are ignored. -/
def construct (t : Tag) (args : List JSNum) : ColorValue :=
  ⟨t, (List.range t.arity).map (fun i => args.get? i)⟩

/-- Construct from plain finite numbers. -/
def constructQ (t : Tag) (args : List ℚ) : ColorValue :=
  construct t (args.map JSNum.fin)

/-- The `dimensions` getter. -/
def ColorValue.dimensions (v : ColorValue) : ℕ :=
  v.tag.arity

/-- `defaultValueFor` of `HLSL.ts`: 0 for indices 0..2, 1 for index 3.
The source throws for any other index; no call site in the source reaches
one, so the model is total with an arbitrary value there. -/
def defaultValueFor (index : ℕ) : ℚ :=
  if index = 3 then 1 else 0

/-- The `red` getter: `values[0]` on all three classes. -/
def ColorValue.red (v : ColorValue) : JVal :=
  getJ v.vals 0

/-- The `green` getter: `values[0]` on `Scalar` (grayscale), `values[1]`
on `Vector2` and `Vector3`. -/
def ColorValue.green (v : ColorValue) : JVal :=
  match v.tag with
  | .scalar => getJ v.vals 0
  | .vector2 => getJ v.vals 1
  | .vector3 => getJ v.vals 1

/-- The `blue` getter: `values[0]` on `Scalar` (grayscale),
`defaultValueFor(2)` on `Vector2`, `values[2]` on `Vector3`. -/
def ColorValue.blue (v : ColorValue) : JVal :=
  match v.tag with
  | .scalar => getJ v.vals 0
  | .vector2 => some (.fin (defaultValueFor 2))
  | .vector3 => getJ v.vals 2

/-- The `alpha` getter: `defaultValueFor(3)` on all three classes. -/
def ColorValue.alpha (_ : ColorValue) : JVal :=
  some (.fin (defaultValueFor 3))

/-- `Scalar.multiply(other)`: a fresh value of `other`'s class whose i-th
component is `this.values[0] * other.values[i]` for `i < other.dimensions`.
`sv` models `this.values[0]`.  The source has no dimension check and no
throw path. -/
def Scalar.multiply (sv : JSNum) (other : ColorValue) : ColorValue :=
  construct other.tag
    ((List.range other.dimensions).map (fun i => jsMul sv (toNum (getJ other.vals i))))

/-- `Scalar.add(other)`: component `i` is `this.values[0] + other.values[i]`. -/
def Scalar.add (sv : JSNum) (other : ColorValue) : ColorValue :=
  construct other.tag
    ((List.range other.dimensions).map (fun i => jsAdd sv (toNum (getJ other.vals i))))

/-- `Scalar.subtract(other)`: component `i` is `this.values[0] - other.values[i]`
(the scalar minus the component). -/
def Scalar.subtract (sv : JSNum) (other : ColorValue) : ColorValue :=
  construct other.tag
    ((List.range other.dimensions).map (fun i => jsSub sv (toNum (getJ other.vals i))))

/-- `Scalar.divide(other)`: component `i` is 0 when `other.values[i] === 0`,
otherwise `this.values[0] / other.values[i]`. -/
def Scalar.divide (sv : JSNum) (other : ColorValue) : ColorValue :=
  construct other.tag
    ((List.range other.dimensions).map (fun i =>
      if getJ other.vals i = some (.fin 0) then .fin 0
      else jsDiv sv (toNum (getJ other.vals i))))

/-- `Vector2.divide(other)`: for divisor dimension 1 or 2 a plain
componentwise division `new Vector2(this.red / other.red, this.green / other.green)`
with no zero guard; any other dimension throws. -/
def Vector2.divide (v other : ColorValue) : Except String ColorValue :=
  match other.dimensions with
  | 1 | 2 =>
    .ok (construct .vector2
      [jsDiv (toNum v.red) (toNum other.red), jsDiv (toNum v.green) (toNum other.green)])
  | _ => .error "Invalid arguments for Vector2.divide"

/-- `Vector3.divide(other)`: for divisor dimension 1 or 3 a plain
componentwise division with no zero guard; any other dimension throws.
(The `HLSL` prefix avoids the `Vector3` type Mathlib already declares.) -/
def HLSL.Vector3.divide (v other : ColorValue) : Except String ColorValue :=
  match other.dimensions with
  | 1 | 3 =>
    .ok (construct .vector3
      [jsDiv (toNum v.red) (toNum other.red), jsDiv (toNum v.green) (toNum other.green),
       jsDiv (toNum v.blue) (toNum other.blue)])
  | _ => .error "Invalid arguments for Vector3.divide"

/-- The scalar path of `Math.lerp`: `a + (b - a) * t`. -/
def lerpNum (a b : JSNum) (t : ℚ) : JSNum :=
  jsAdd a (jsMul (jsSub b a) (.fin t))

/-- The `Renderable` path of `Math.lerp`: the result class is that of the
higher-dimensional operand, but the values array is allocated and filled
only for `i < a.dimensions`, each entry
`lerp(a.values[i] ?? defaultValueFor(i), b.values[i] ?? defaultValueFor(i), t)`;
the constructor pads any remaining slots with `undefined`. -/
def Math.lerp (a b : ColorValue) (t : ℚ) : ColorValue :=
  construct (if a.dimensions > b.dimensions then a.tag else b.tag)
    ((List.range a.dimensions).map (fun i =>
      lerpNum ((getJ a.vals i).getD (.fin (defaultValueFor i)))
              ((getJ b.vals i).getD (.fin (defaultValueFor i))) t))

/-- The scalar path of `Math.clamp`: `Math.min(Math.max(x, min), max)`. -/
def clampNum (x lo hi : JSNum) : JSNum :=
  jsMin (jsMax x lo) hi

/-- One loop iteration of the `Renderable` path of `Math.clamp`:
`Math.clamp(x.values[i] ?? defaultValueFor(i), min.values[i] ?? defaultValueFor(i), max.values[i])`.
`max.values[i]` has no default; when it is `undefined` the recursive call
matches neither the number path nor the object path and throws. -/
def clampElem (x lo hi : ColorValue) (i : ℕ) : Except String JSNum :=
  match getJ hi.vals i with
  | some h =>
    .ok (clampNum ((getJ x.vals i).getD (.fin (defaultValueFor i)))
                  ((getJ lo.vals i).getD (.fin (defaultValueFor i))) h)
  | none => .error "Invalid arguments for Math.clamp"

/-- Sequence a list of per-element results, stopping at the first throw,
as the source loop does. -/
def collectOk : List (Except String JSNum) → Except String (List JSNum)
  | [] => .ok []
  | .error e :: _ => .error e
  | .ok v :: rest =>
    match collectOk rest with
    | .ok vs => .ok (v :: vs)
    | .error e => .error e

/-- The `Renderable` path of `Math.clamp`: the result class is
`x.dimensions > min.dimensions ? x : min`; the loop runs for
`i < x.dimensions`. -/
def Math.clamp (x lo hi : ColorValue) : Except String ColorValue :=
  match collectOk ((List.range x.dimensions).map (clampElem x lo hi)) with
  | .ok values =>
    .ok (construct (if lo.dimensions < x.dimensions then x.tag else lo.tag) values)
  | .error e => .error e

/-- Modelled from the spec: `Math.remap` is declared in `HLSL.ts`
(lines 46-63) but no implementation is assigned anywhere under the source
tree.  Following the spec's words: a linear remap of `v` from
`[iMin, iMax]` to `[oMin, oMax]` that fails (RangeError) exactly when `v`
lies outside `[iMin, iMax]`. -/
def Math.remap (iMin iMax oMin oMax v : ℚ) : Except String ℚ :=
  if iMin ≤ v ∧ v ≤ iMax then
    .ok (oMin + (v - iMin) / (iMax - iMin) * (oMax - oMin))
  else
    .error "RangeError"

/-- Component `i` of a plain-rational argument list with the
`defaultValueFor` fill for indices beyond the list. -/
def padded (l : List ℚ) (i : ℕ) : ℚ :=
  (l.get? i).getD (defaultValueFor i)

/-- `Vector2.distance(other)` over the reals: the Euclidean distance
`Math.sqrt((this.red - other.red)^2 + (this.green - other.green)^2)`.
The two components of each `Vector2` are idealized to real numbers so that
`sqrt` and `exp` are exact. -/
noncomputable def distanceR (a b : ℝ × ℝ) : ℝ :=
  Real.sqrt ((a.1 - b.1) ^ 2 + (a.2 - b.2) ^ 2)

/-- `Math.radialGradientExponential(uv, centerPosition, radius, density)`:
`new Scalar(Math.exp(-distance * density.red))` where
`distance = uv.distance(centerPosition).red`.  `radius` and `density` are
the `Scalar` arguments' single components.  The `radius` parameter is bound
but never read, exactly as in the source. -/
noncomputable def Math.radialGradientExponential
    (uv centerPosition : ℝ × ℝ) (radius density : ℝ) : ℝ :=
  Real.exp (-(distanceR uv centerPosition) * density)

/-- The fixed raster size of `Canvas.tsx`. -/
def renderSize : ℕ := 512

/-- The 2d context's pixel state: a device color string per coordinate. -/
def CanvasState : Type := ℕ × ℕ → String

/-- `fillStyle := v; fillRect(p.1, p.2, 1, 1)`. -/
def writePixel (c : CanvasState) (p : ℕ × ℕ) (v : String) : CanvasState :=
  fun q => if q = p then v else c q

/-- `clearRect(0, 0, renderSize, renderSize)`: in-range pixels become the
cleared (blank) color. -/
def clearRect (c : CanvasState) : CanvasState :=
  fun p => if p.1 < renderSize ∧ p.2 < renderSize then "" else c p

/-- `new Vector2(x / renderSize, y / renderSize)` for integer pixel
coordinates. -/
def texCoordAt (x y : ℕ) : ColorValue :=
  constructQ .vector2 [(x : ℚ) / renderSize, (y : ℚ) / renderSize]

/-- A compiled shader program, as the rasterizer uses it: from the pixel's
texture coordinate to the device color string produced by
`renderFunction(texCoord, Scalar, Vector2, Vector3).render()`, or a thrown
error. -/
def ShaderFun : Type := ColorValue → Except Unit String

/-- One pixel's evaluation with the per-pixel try/catch: a throw paints
the opaque fallback black `#000000`. -/
def evalPixel (f : ShaderFun) (x y : ℕ) : String :=
  match f (texCoordAt x y) with
  | .ok s => s
  | .error _ => "#000000"

/-- The raster loop's iteration order: `x` outer, `y` inner, both `0..n-1`. -/
def pixelCoords (n : ℕ) : List (ℕ × ℕ) :=
  (List.range n).bind (fun x => (List.range n).map (fun y => (x, y)))

/-- The double pixel loop of `Canvas.tsx`: each coordinate is evaluated and
its single pixel written. -/
def rasterLoop (f : ShaderFun) (c : CanvasState) : CanvasState :=
  (pixelCoords renderSize).foldl (fun acc p => writePixel acc p (evalPixel f p.1 p.2)) c

/-- The summary diagnostic appended after the loop:
`Rendered ${width}x${height} pixels` with the fixed 512x512 canvas. -/
def summaryLine : String :=
  "Rendered " ++ toString renderSize ++ "x" ++ toString renderSize ++ " pixels"

/-- `Logger.toString()`: the accumulated lines joined by newlines. -/
def logJoin (lines : List String) : String :=
  String.intercalate "\n" lines

/-- The observable outcome of one `useEffect` render pass. -/
structure PassResult where
  /-- The 2d context's pixels after the pass. -/
  canvas : CanvasState
  /-- How many times the compiled shader was invoked. -/
  evals : ℕ
  /-- The `Logger`'s accumulated lines (with `ERROR:` prefixes). -/
  log : List String
  /-- The argument of each `setOutput` call, in order (the `finally`
  block performs exactly one). -/
  flushed : List String

/-- One render pass of `Canvas.tsx`.  `compile` is the outcome of the
`new Function(... transpile(code))` step: a shader function, or a thrown
compile error carrying its message when one is available.  Every exit path
of the `try` runs the `finally`, which flushes the joined log once. -/
def renderPass (canvasPresent contextPresent : Bool)
    (compile : Except (Option String) ShaderFun) (c0 : CanvasState) : PassResult :=
  match canvasPresent, contextPresent, compile with
  | false, _, _ =>
    let lg := ["ERROR: No canvas"]
    { canvas := c0, evals := 0, log := lg, flushed := [logJoin lg] }
  | true, false, _ =>
    let lg := ["ERROR: No canvas context"]
    { canvas := c0, evals := 0, log := lg, flushed := [logJoin lg] }
  | true, true, .error msg =>
    let lg := "Compiling shader..." :: "ERROR: Shader compilation failed" ::
      (match msg with
       | some m => ["ERROR: " ++ m]
       | none => [])
    { canvas := c0, evals := 0, log := lg, flushed := [logJoin lg] }
  | true, true, .ok f =>
    let lg := ["Compiling shader...", "Shader compiled successfully", summaryLine]
    { canvas := rasterLoop f (clearRect c0),
      evals := (pixelCoords renderSize).length,
      log := lg,
      flushed := [logJoin lg] }

lemma range_map_get {α β : Type*} (l : List α) (F : Option α → β) :
    (List.range l.length).map (fun i => F (l.get? i)) = l.map (fun a => F (some a)) := by
  induction l with
  | nil => rfl
  | cons a tl ih =>
    rw [List.length_cons, List.range_succ_eq_map, List.map_cons, List.map_map]
    simp only [List.get?_cons_zero, Function.comp_def, List.get?_cons_succ]
    rw [List.map_cons]
    exact congrArg _ ih

lemma construct_full (t : Tag) (l : List JSNum) (h : l.length = t.arity) :
    construct t l = ⟨t, l.map some⟩ := by
  unfold construct
  rw [← h]
  exact congrArg _ (by simpa using range_map_get l id)

lemma constructQ_vals (t : Tag) (args : List ℚ) (h : args.length = t.arity) :
    (constructQ t args).vals = args.map (fun q => some (JSNum.fin q)) := by
  unfold constructQ
  rw [construct_full t (args.map JSNum.fin) (by simpa using h), List.map_map]
  rfl

lemma Tag.arity_injective {a b : Tag} (h : a.arity = b.arity) : a = b := by
  cases a <;> cases b <;> first | rfl | exact absurd h (by decide)

lemma scalar_loop (t : Tag) (args : List ℚ) (h : args.length = t.arity) (g : JVal → JSNum) :
    (List.range (constructQ t args).dimensions).map
        (fun i => g (getJ (constructQ t args).vals i))
      = args.map (fun q => g (some (.fin q))) := by
  have hv := constructQ_vals t args h
  have hd : (constructQ t args).dimensions = (constructQ t args).vals.length := by
    rw [hv, List.length_map, h]
    rfl
  rw [hd, hv]
  have := range_map_get (α := JVal) (args.map (fun q => some (JSNum.fin q)))
    (fun o => g (o.getD none))
  simp only [List.length_map] at this ⊢
  rw [show (fun i => g (getJ (args.map (fun q => some (JSNum.fin q))) i))
        = (fun i => g (((args.map (fun q => some (JSNum.fin q))).get? i).getD none)) from rfl]
  rw [this, List.map_map]
  rfl

lemma getJ_padded (t : Tag) (args : List ℚ) (h : args.length = t.arity) (i : ℕ) :
    (getJ (constructQ t args).vals i).getD (.fin (defaultValueFor i))
      = .fin (padded args i) := by
  rw [constructQ_vals t args h]
  unfold getJ padded
  rw [List.get?_map]
  cases args.get? i <;> rfl

lemma getJ_lt (t : Tag) (args : List ℚ) (h : args.length = t.arity) (i : ℕ)
    (hi : i < args.length) :
    getJ (constructQ t args).vals i = some (.fin (padded args i)) := by
  rw [constructQ_vals t args h]
  unfold getJ padded
  rw [List.get?_map]
  cases hq : args.get? i with
  | none => exact absurd (List.get?_eq_none.mp hq) (not_le.mpr hi)
  | some q => rfl

lemma collectOk_map_ok {α : Type*} (l : List α) (g : α → JSNum) :
    collectOk (l.map (fun a => .ok (g a))) = .ok (l.map g) := by
  induction l with
  | nil => rfl
  | cons a tl ih => simp [collectOk, ih]

lemma Scalar.multiply_eq (s : ℚ) (t : Tag) (args : List ℚ) (h : args.length = t.arity) :
    Scalar.multiply (.fin s) (constructQ t args) = constructQ t (args.map (fun q => s * q)) := by
  unfold Scalar.multiply
  rw [scalar_loop t args h (fun v => jsMul (.fin s) (toNum v))]
  unfold constructQ
  rw [List.map_map]
  rfl

lemma Scalar.add_eq (s : ℚ) (t : Tag) (args : List ℚ) (h : args.length = t.arity) :
    Scalar.add (.fin s) (constructQ t args) = constructQ t (args.map (fun q => s + q)) := by
  unfold Scalar.add
  rw [scalar_loop t args h (fun v => jsAdd (.fin s) (toNum v))]
  unfold constructQ
  rw [List.map_map]
  rfl

lemma Scalar.subtract_eq (s : ℚ) (t : Tag) (args : List ℚ) (h : args.length = t.arity) :
    Scalar.subtract (.fin s) (constructQ t args) = constructQ t (args.map (fun q => s - q)) := by
  unfold Scalar.subtract
  rw [scalar_loop t args h (fun v => jsSub (.fin s) (toNum v))]
  unfold constructQ
  rw [List.map_map]
  rfl

lemma Scalar.divide_eq (s : ℚ) (t : Tag) (args : List ℚ) (h : args.length = t.arity) :
    Scalar.divide (.fin s) (constructQ t args)
      = constructQ t (args.map (fun q => if q = 0 then 0 else s / q)) := by
  unfold Scalar.divide
  rw [scalar_loop t args h
    (fun v => if v = some (.fin 0) then .fin 0 else jsDiv (.fin s) (toNum v))]
  unfold constructQ
  rw [List.map_map]
  refine congrArg _ (List.map_congr_left (fun q _ => ?_))
  by_cases hq : q = 0
  · simp [hq]
  · simp [hq, jsDiv, toNum]

lemma rasterLoop_apply (f : ShaderFun) (l : List (ℕ × ℕ)) (c : CanvasState) (p : ℕ × ℕ) :
    (l.foldl (fun acc q => writePixel acc q (evalPixel f q.1 q.2)) c) p
      = if p ∈ l then evalPixel f p.1 p.2 else c p := by
  induction l generalizing c with
  | nil => simp
  | cons a tl ih =>
    rw [List.foldl_cons, ih]
    by_cases hp : p ∈ tl
    · simp [hp]
    · by_cases hpa : p = a
      · subst hpa
        simp [hp, writePixel]
      · simp [hp, hpa, writePixel]

lemma mem_pixelCoords (n : ℕ) (p : ℕ × ℕ) : p ∈ pixelCoords n ↔ p.1 < n ∧ p.2 < n := by
  obtain ⟨x, y⟩ := p
  simp [pixelCoords, List.mem_bind, List.mem_range, eq_comm]

lemma rasterLoop_eq (f : ShaderFun) (c : CanvasState) (x y : ℕ)
    (hx : x < renderSize) (hy : y < renderSize) :
    rasterLoop f c (x, y) = evalPixel f x y := by
  unfold rasterLoop
  rw [rasterLoop_apply]
  simp [mem_pixelCoords, hx, hy]

attribute [irreducible] pixelCoords

/-- C10: for every scalar `s` and every fully constructed finite operand of
dimension 1, 2 or 3, `Scalar.multiply`, `Scalar.add`, `Scalar.subtract` and
`Scalar.divide` never throw: each returns a value of the operand's own
variant whose i-th component is respectively `s * v_i`, `s + v_i`, `s - v_i`
(the scalar minus the component) and `s / v_i` with 0 substituted when
`v_i = 0`. -/
theorem claim10_scalar_ops (s : ℚ) (t : Tag) (args : List ℚ)
    (h : args.length = t.arity) :
    Scalar.multiply (.fin s) (constructQ t args)
        = constructQ t (args.map (fun q => s * q)) ∧
    Scalar.add (.fin s) (constructQ t args)
        = constructQ t (args.map (fun q => s + q)) ∧
    Scalar.subtract (.fin s) (constructQ t args)
        = constructQ t (args.map (fun q => s - q)) ∧
    Scalar.divide (.fin s) (constructQ t args)
        = constructQ t (args.map (fun q => if q = 0 then 0 else s / q)) :=
  ⟨Scalar.multiply_eq s t args h, Scalar.add_eq s t args h,
   Scalar.subtract_eq s t args h, Scalar.divide_eq s t args h⟩

/-- C10 witness at s = 2 against the Vector2 operand (3, 0). -/
theorem claim10_scalar_ops_witness :
    Scalar.multiply (.fin 2) (constructQ .vector2 [3, 0])
        = constructQ .vector2 ([3, 0].map (fun q => 2 * q)) ∧
    Scalar.add (.fin 2) (constructQ .vector2 [3, 0])
        = constructQ .vector2 ([3, 0].map (fun q => 2 + q)) ∧
    Scalar.subtract (.fin 2) (constructQ .vector2 [3, 0])
        = constructQ .vector2 ([3, 0].map (fun q => 2 - q)) ∧
    Scalar.divide (.fin 2) (constructQ .vector2 [3, 0])
        = constructQ .vector2 ([3, 0].map (fun q => if q = 0 then 0 else 2 / q)) :=
  claim10_scalar_ops 2 .vector2 [3, 0] (by decide)

lemma vector2_divide_eval :
    Vector2.divide (constructQ .vector2 [1, 2]) (constructQ .vector2 [0, 4])
      = .ok ⟨.vector2, [some .posInf, some (.fin (1 / 2))]⟩ := by
  show Except.ok (construct .vector2 _) = _
  simp only [constructQ, construct, Tag.arity, List.range_succ, List.range_zero,
    ColorValue.red, ColorValue.green, getJ, toNum, List.nil_append, List.map_cons,
    List.map_nil, List.cons_append, List.get?_cons_zero, List.get?_cons_succ,
    List.get?_nil, Option.getD_some, jsDiv]
  norm_num

lemma vector3_divide_eval :
    HLSL.Vector3.divide (constructQ .vector3 [1, 1, 1]) (constructQ .vector3 [0, 2, 0])
      = .ok ⟨.vector3, [some .posInf, some (.fin (1 / 2)), some .posInf]⟩ := by
  show Except.ok (construct .vector3 _) = _
  simp only [constructQ, construct, Tag.arity, List.range_succ, List.range_zero,
    ColorValue.red, ColorValue.green, ColorValue.blue, getJ, toNum, List.nil_append,
    List.map_cons, List.map_nil, List.cons_append, List.get?_cons_zero,
    List.get?_cons_succ, List.get?_nil, Option.getD_some, jsDiv]
  norm_num

/-- C1 (amended): only `Scalar.divide` substitutes 0 for a divisor component
that is exactly 0; `Vector2.divide` and `Vector3.divide` divide componentwise
with no guard, so a zero divisor component yields an infinity (or NaN for
0/0).  In particular `Vector2(1,2).divide(Vector2(0,4))` is
`Vector2(Infinity, 0.5)`, not `Vector2(0, 0.5)`. -/
theorem claim1_divide_by_zero (s : ℚ) (t : Tag) (args : List ℚ)
    (h : args.length = t.arity) (i : ℕ) (hi : args.get? i = some 0) :
    (Scalar.divide (.fin s) (constructQ t args)).vals.get? i
        = some (some (.fin 0)) ∧
    Vector2.divide (constructQ .vector2 [1, 2]) (constructQ .vector2 [0, 4])
        = .ok ⟨.vector2, [some .posInf, some (.fin (1 / 2))]⟩ ∧
    HLSL.Vector3.divide (constructQ .vector3 [1, 1, 1]) (constructQ .vector3 [0, 2, 0])
        = .ok ⟨.vector3, [some .posInf, some (.fin (1 / 2)), some .posInf]⟩ := by
  refine ⟨?_, vector2_divide_eval, vector3_divide_eval⟩
  rw [Scalar.divide_eq s t args h]
  rw [constructQ_vals t (args.map (fun q => if q = 0 then 0 else s / q))
    (by rw [List.length_map]; exact h)]
  rw [List.get?_map, List.get?_map, hi]
  simp

/-- C1 counterexample: `Vector2(1,2).divide(Vector2(0,4))` does not equal
`Vector2(0, 0.5)`; its first component is `Infinity`, not 0. -/
theorem claim1_counterexample :
    Vector2.divide (constructQ .vector2 [1, 2]) (constructQ .vector2 [0, 4])
      ≠ .ok (constructQ .vector2 [0, 1 / 2]) := by
  rw [vector2_divide_eval]
  simp [constructQ, construct, Tag.arity, List.range_succ]

/-- C1 witness: the `Scalar.divide` zero guard at s = 1, divisor Vector2(0, 4). -/
theorem claim1_witness :
    (Scalar.divide (.fin 1) (constructQ .vector2 [0, 4])).vals.get? 0
        = some (some (.fin 0)) ∧
    Vector2.divide (constructQ .vector2 [1, 2]) (constructQ .vector2 [0, 4])
        = .ok ⟨.vector2, [some .posInf, some (.fin (1 / 2))]⟩ ∧
    HLSL.Vector3.divide (constructQ .vector3 [1, 1, 1]) (constructQ .vector3 [0, 2, 0])
        = .ok ⟨.vector3, [some .posInf, some (.fin (1 / 2)), some .posInf]⟩ :=
  claim1_divide_by_zero 1 .vector2 [0, 4] (by decide) 0 rfl

/-- C2 (amended): in-range channels return the stored component, `Vector2.blue`
is 0 and `alpha` is 1 on every variant; but `Scalar.green` and `Scalar.blue`
return the scalar's single component (grayscale), not the default 0. -/
theorem claim2_channel_defaults (q a b c : ℚ) :
    (constructQ .scalar [q]).red = some (.fin q) ∧
    (constructQ .scalar [q]).green = some (.fin q) ∧
    (constructQ .scalar [q]).blue = some (.fin q) ∧
    (constructQ .scalar [q]).alpha = some (.fin 1) ∧
    (constructQ .vector2 [a, b]).red = some (.fin a) ∧
    (constructQ .vector2 [a, b]).green = some (.fin b) ∧
    (constructQ .vector2 [a, b]).blue = some (.fin 0) ∧
    (constructQ .vector2 [a, b]).alpha = some (.fin 1) ∧
    (constructQ .vector3 [a, b, c]).red = some (.fin a) ∧
    (constructQ .vector3 [a, b, c]).green = some (.fin b) ∧
    (constructQ .vector3 [a, b, c]).blue = some (.fin c) ∧
    (constructQ .vector3 [a, b, c]).alpha = some (.fin 1) :=
  ⟨rfl, rfl, rfl, rfl, rfl, rfl, rfl, rfl, rfl, rfl, rfl, rfl⟩

/-- C2 counterexample: `Scalar(0.5).green` and `Scalar(0.5).blue` are 0.5,
not the claimed default 0. -/
theorem claim2_counterexample :
    (constructQ .scalar [1 / 2]).green ≠ some (.fin 0) ∧
    (constructQ .scalar [1 / 2]).blue ≠ some (.fin 0) := by
  constructor <;>
    · simp only [constructQ, construct, Tag.arity, List.range_succ, List.range_zero,
        ColorValue.green, ColorValue.blue, getJ, List.nil_append, List.map_cons,
        List.map_nil, List.get?_cons_zero, Option.getD_some, ne_eq, Option.some.injEq,
        JSNum.fin.injEq]
      norm_num

/-- C3: evaluating `Math.lerp` at the failing input a = Scalar(0),
b = Vector3(1,1,1), t = 1: the loop runs only over a's single dimension, so
the constructed Vector3 has green and blue `undefined`, and `lerp(a b 1)`
is not `b` as the spec requires. -/
theorem claim3_lerp_eval :
    Math.lerp (constructQ .scalar [0]) (constructQ .vector3 [1, 1, 1]) 1
        = ⟨.vector3, [some (.fin 1), none, none]⟩ ∧
    Math.lerp (constructQ .scalar [0]) (constructQ .vector3 [1, 1, 1]) 1
        ≠ constructQ .vector3 [1, 1, 1] := by
  have h : Math.lerp (constructQ .scalar [0]) (constructQ .vector3 [1, 1, 1]) 1
      = ⟨.vector3, [some (.fin 1), none, none]⟩ := by
    simp only [Math.lerp, constructQ, construct, ColorValue.dimensions, Tag.arity,
      List.range_succ, List.range_zero, getJ, lerpNum, jsAdd, jsSub, jsMul,
      defaultValueFor, List.nil_append, List.map_cons, List.map_nil, List.cons_append,
      List.get?_cons_zero, List.get?_cons_succ, List.get?_nil, Option.getD_some,
      Option.getD_none, gt_iff_lt]
    norm_num
    decide
  refine ⟨h, ?_⟩
  rw [h]
  simp [constructQ, construct, Tag.arity, List.range_succ]

/-- C4 (amended): on any compile failure the pass evaluates no pixel, leaves
the output image exactly in its prior state, and flushes once a log holding
the "Compiling shader..." progress line followed by the compile-failure
diagnostic (with the underlying message when one is available) and nothing
else. -/
theorem claim4_compile_failure (m : Option String) (c0 : CanvasState) :
    (renderPass true true (.error m) c0).canvas = c0 ∧
    (renderPass true true (.error m) c0).evals = 0 ∧
    (renderPass true true (.error m) c0).log
        = "Compiling shader..." :: "ERROR: Shader compilation failed" ::
          (match m with
           | some s => ["ERROR: " ++ s]
           | none => []) ∧
    (renderPass true true (.error m) c0).flushed
        = [logJoin ((renderPass true true (.error m) c0).log)] :=
  ⟨rfl, rfl, rfl, rfl⟩

/-- C4 counterexample: on a compile failure the flushed log also holds the
"Compiling shader..." progress line, so it is not exactly the compile-error
lines. -/
theorem claim4_counterexample :
    (renderPass true true (.error (some "m")) (fun _ => "w")).log
      ≠ ["ERROR: Shader compilation failed", "ERROR: m"] := by
  intro h
  exact absurd (List.head_eq_of_cons_eq h) (by decide)

set_option maxRecDepth 4000 in
/-- C5: for every compiled shader and pixel (x, y) with x, y < 512, the final
color of (x, y) is that pixel's own evaluation — "#000000" when it throws —
independent of every other pixel; a shader that throws on every invocation
yields "#000000" at every pixel and the pass still logs the rendered-
dimensions summary line. -/
theorem claim5_pixel_isolation (f : ShaderFun) (c0 : CanvasState) (x y : ℕ)
    (hx : x < renderSize) (hy : y < renderSize) :
    (renderPass true true (.ok f) c0).canvas (x, y) = evalPixel f x y ∧
    (renderPass true true (.ok (fun _ => .error ())) c0).canvas (x, y) = "#000000" ∧
    (renderPass true true (.ok (fun _ => .error ())) c0).log
        = ["Compiling shader...", "Shader compiled successfully",
           "Rendered 512x512 pixels"] := by
  refine ⟨?_, ?_, ?_⟩
  · rw [show (renderPass true true (.ok f) c0).canvas
        = rasterLoop f (clearRect c0) from rfl]
    exact rasterLoop_eq f (clearRect c0) x y hx hy
  · rw [show (renderPass true true (.ok (fun _ => .error ())) c0).canvas
        = rasterLoop (fun _ => .error ()) (clearRect c0) from rfl]
    rw [rasterLoop_eq (fun _ => .error ()) (clearRect c0) x y hx hy]
    rfl
  · rfl

/-- C5 witness at the shader that always throws, pixel (0, 0). -/
theorem claim5_witness :
    (renderPass true true (.ok (fun _ => Except.ok "#ffffff")) (fun _ => "")).canvas
        (0, 0) = evalPixel (fun _ => Except.ok "#ffffff") 0 0 ∧
    (renderPass true true (.ok (fun _ => .error ())) (fun _ => "")).canvas (0, 0)
        = "#000000" ∧
    (renderPass true true (.ok (fun _ => .error ())) (fun _ => "")).log
        = ["Compiling shader...", "Shader compiled successfully",
           "Rendered 512x512 pixels"] :=
  claim5_pixel_isolation (fun _ => Except.ok "#ffffff") (fun _ => "") 0 0
    (by decide) (by decide)

/-- C8: on every render pass and every exit path — missing canvas, missing
context, compile failure, success — the diagnostic log is flushed to
`setOutput` exactly once, with the joined log lines. -/
theorem claim8_flush_once (canvasPresent contextPresent : Bool)
    (compile : Except (Option String) ShaderFun) (c0 : CanvasState) :
    (renderPass canvasPresent contextPresent compile c0).flushed
      = [logJoin ((renderPass canvasPresent contextPresent compile c0).log)] := by
  cases canvasPresent <;> cases contextPresent <;> cases compile <;> rfl

/-- C6: `Math.remap` linearly remaps v from [iMin, iMax] to [oMin, oMax] and
fails with a RangeError exactly when v lies outside [iMin, iMax].  (Settled
against the spec-modelled definition: the source declares `Math.remap` but
assigns no implementation.) -/
theorem claim6_remap (iMin iMax oMin oMax v : ℚ) :
    (iMin ≤ v ∧ v ≤ iMax →
      Math.remap iMin iMax oMin oMax v
        = .ok (oMin + (v - iMin) / (iMax - iMin) * (oMax - oMin))) ∧
    (¬(iMin ≤ v ∧ v ≤ iMax) →
      Math.remap iMin iMax oMin oMax v = .error "RangeError") := by
  constructor <;> intro h <;> simp [Math.remap, h]

/-- C6 witness: remapping 1 from [0, 2] to [0, 10], and the failure at v = 3. -/
theorem claim6_remap_witness :
    Math.remap 0 2 0 10 1 = .ok (0 + (1 - 0) / (2 - 0) * (10 - 0)) ∧
    Math.remap 0 2 0 10 3 = .error "RangeError" :=
  ⟨(claim6_remap 0 2 0 10 1).1 (by decide),
   (claim6_remap 0 2 0 10 3).2 (by decide)⟩

/-- C9: `Math.radialGradientExponential` returns exp(−distance(uv, center) ×
density); the radius argument never affects the result; and at uv = center
(distance 0) the result is 1 for every radius and density. -/
theorem claim9_radial_gradient (uv c : ℝ × ℝ) (r r' d : ℝ) :
    Math.radialGradientExponential uv c r d = Real.exp (-(distanceR uv c) * d) ∧
    Math.radialGradientExponential uv c r d
      = Math.radialGradientExponential uv c r' d ∧
    Math.radialGradientExponential c c r d = 1 := by
  refine ⟨rfl, rfl, ?_⟩
  simp [Math.radialGradientExponential, distanceR]

lemma clampNum_fin (a b c : ℚ) :
    clampNum (.fin a) (.fin b) (.fin c) = .fin (min (max a b) c) := rfl

lemma clampElem_eq (tx tm tM : Tag) (xs ms Ms : List ℚ)
    (hx : xs.length = tx.arity) (hm : ms.length = tm.arity)
    (hM : Ms.length = tM.arity) (i : ℕ) (hiM : i < Ms.length) :
    clampElem (constructQ tx xs) (constructQ tm ms) (constructQ tM Ms) i
      = .ok (.fin (min (max (padded xs i) (padded ms i)) (padded Ms i))) := by
  simp only [clampElem, getJ_lt tM Ms hM i hiM, getJ_padded tx xs hx i,
    getJ_padded tm ms hm i, clampNum_fin]

/-- C7 (amended): `Math.clamp` on fully constructed finite inputs succeeds
when `min.dimensions ≤ x.dimensions ≤ max.dimensions` and min ≤ max
componentwise; the result is of x's variant (dimension
`max(x.dimensions, min.dimensions)`), its i-th component is
`min(max(x_i, min_i), max_i)` with defaults filling min's missing
components, and each component lies within `[min_i, max_i]`.  (The claim's
unrestricted broadcasting fails: a `max` narrower than `x` throws, and a
`min` wider than `x` leaves result components undefined.) -/
theorem claim7_clamp (tx tm tM : Tag) (xs ms Ms : List ℚ)
    (hx : xs.length = tx.arity) (hm : ms.length = tm.arity)
    (hM : Ms.length = tM.arity) (h1 : tm.arity ≤ tx.arity)
    (h2 : tx.arity ≤ tM.arity)
    (hb : ∀ i, i < tx.arity → padded ms i ≤ padded Ms i) :
    Math.clamp (constructQ tx xs) (constructQ tm ms) (constructQ tM Ms)
      = .ok (constructQ tx ((List.range tx.arity).map
          (fun i => min (max (padded xs i) (padded ms i)) (padded Ms i)))) ∧
    ∀ i, i < tx.arity →
      padded ms i ≤ min (max (padded xs i) (padded ms i)) (padded Ms i) ∧
      min (max (padded xs i) (padded ms i)) (padded Ms i) ≤ padded Ms i := by
  constructor
  · unfold Math.clamp
    have hmap : (List.range (constructQ tx xs).dimensions).map
          (clampElem (constructQ tx xs) (constructQ tm ms) (constructQ tM Ms))
        = (List.range tx.arity).map
            (fun i => Except.ok
              (.fin (min (max (padded xs i) (padded ms i)) (padded Ms i)))) := by
      refine List.map_congr_left (fun i hi => ?_)
      rw [List.mem_range] at hi
      exact clampElem_eq tx tm tM xs ms Ms hx hm hM i
        (by rw [hM]; exact lt_of_lt_of_le hi h2)
    rw [hmap, collectOk_map_ok]
    have htag : (if (constructQ tm ms).dimensions < (constructQ tx xs).dimensions
          then (constructQ tx xs).tag else (constructQ tm ms).tag) = tx := by
      by_cases hcase : (constructQ tm ms).dimensions < (constructQ tx xs).dimensions
      · rw [if_pos hcase]
        rfl
      · rw [if_neg hcase]
        show tm = tx
        exact Tag.arity_injective (le_antisymm h1 (not_lt.mp hcase))
    rw [htag]
    show Except.ok (construct tx ((List.range tx.arity).map
        (fun i => JSNum.fin (min (max (padded xs i) (padded ms i)) (padded Ms i))))) = _
    rw [construct_full tx _ (by rw [List.length_map, List.length_range])]
    unfold constructQ
    rw [construct_full tx _ (by rw [List.length_map, List.length_map, List.length_range])]
    simp [List.map_map, Function.comp_def]
  · intro i hi
    exact ⟨le_min (le_max_right _ _) (hb i hi), min_le_right _ _⟩

/-- C7 witness: clamping Scalar(2) between Scalar(0) and Scalar(1). -/
theorem claim7_clamp_witness :
    Math.clamp (constructQ .scalar [2]) (constructQ .scalar [0]) (constructQ .scalar [1])
      = .ok (constructQ .scalar ((List.range (Tag.arity .scalar)).map
          (fun i => min (max (padded [2] i) (padded [0] i)) (padded [1] i)))) ∧
    ∀ i, i < Tag.arity .scalar →
      padded [0] i ≤ min (max (padded [2] i) (padded [0] i)) (padded [1] i) ∧
      min (max (padded [2] i) (padded [0] i)) (padded [1] i) ≤ padded [1] i :=
  claim7_clamp .scalar .scalar .scalar [2] [0] [1] (by decide) (by decide)
    (by decide) (by decide) (by decide) (by decide)

/-- C7 counterexample: the broadcastable call
`clamp(Vector2(0.5, 0.5), Scalar(0), Scalar(1))` does not succeed — the
loop reads `max.values[1]`, which is undefined, and throws. -/
theorem claim7_counterexample :
    Math.clamp (constructQ .vector2 [1 / 2, 1 / 2]) (constructQ .scalar [0])
        (constructQ .scalar [1])
      = .error "Invalid arguments for Math.clamp" := rfl
